import Mathlib

/-!
Shallow embedding of `src/server.js` (Express + Google Calendar availability
and booking API for a barber-shop WhatsApp bot).

Modelling conventions:
* Instants are integer minutes on the request date's timeline.  The
  construction `dayjs.tz(date + " " + t, tz)` is abstracted as an
  uninterpreted parameter `djs : String → String → Int` mapping a date
  string and a wall-clock `HH:mm` string to an absolute minute count;
  `add(n, "minute")` is integer addition, `isBefore` / `isAfter` are
  `<` / `>`, and `diff(_, "minute")` is subtraction, exactly as dayjs
  behaves within one day.
* Suggestion entries are recorded as their start instants; the source
  formats each with `format("HH:mm")`, an injective presentation of the
  same value within one day.
* Network effects are the `CalendarGateway` record of `Except`-returning
  functions.  Each handler additionally returns the list of free/busy
  intervals it queried, so call-count properties are statable; a query
  that raises is still recorded (the network call was issued).
* The `while` loop of the availability scan takes an explicit fuel
  argument (a model artifact: with `stepMin ≤ 0` the JS loop can run
  forever; every theorem below either holds for all fuel or assumes
  `1 ≤ stepMin`).
* JS truthiness on the string-valued request fields and on the cached
  refresh token is `jsFalsy` (absent or empty string).
-/

/-- Error taxonomy: `authError` is the error thrown by `ensureAuthed`
(spec name: AuthenticationError), `upstreamError` any Calendar Service
failure (spec name: UpstreamError). -/
inductive SrvError where
  | authError (msg : String)
  | upstreamError (msg : String)
deriving DecidableEq

/-- One busy interval as reported by the free/busy query. -/
structure BusyInterval where
  busyStart : Int
  busyEnd : Int
deriving DecidableEq

/-- The request body of `cal.events.insert` (server.js lines 205-214). -/
structure EventBody where
  summary : String
  description : String
  startDateTime : Int
  endDateTime : Int
  timeZone : String
deriving DecidableEq

/-- The two Calendar Service operations used by the server:
`cal.freebusy.query` (arguments: calendar id, timeMin, timeMax, timeZone;
`none` models a response with no entry for the calendar) and
`cal.events.insert`. -/
structure CalendarGateway where
  freebusyQuery : String → Int → Int → String → Except SrvError (Option (List BusyInterval))
  eventsInsert : String → EventBody → Except SrvError String

/-- Body of POST /availability as destructured in server.js lines 121-131;
`none` is an absent JSON field, so `Option.getD` is the JS destructuring
default. -/
structure AvailReq where
  calendarId : Option String := none
  date : Option String := none
  time : Option String := none
  durationMin : Option Int := none
  tz : Option String := none
  horarioInicio : Option String := none
  horarioFin : Option String := none
  stepMin : Option Int := none
  maxSugs : Option Nat := none

/-- Body of POST /book as destructured in server.js lines 189-195. -/
structure BookReq where
  calendarId : Option String := none
  date : Option String := none
  time : Option String := none
  durationMin : Option Int := none
  tz : Option String := none
  nombre : Option String := none
  tel : Option String := none
  servicio : Option String := none
  barbero : Option String := none
  nota : Option String := none
  code : Option String := none

/-- HTTP outcome of POST /availability: `json` is the 200 body
`{disponible, sugerencias}` (suggestions as start instants), `err s m` is
status `s` with body `{error: m}`, `fuelOut` a model artifact for loop-fuel
exhaustion. -/
inductive AvailResp where
  | json (disponible : Bool) (sugerencias : List Int)
  | err (status : Nat) (error : String)
  | fuelOut
deriving DecidableEq

/-- HTTP outcome of POST /book: `json` is the 200 body `{ok, eventId}`,
`err s okField m` is status `s` with body `{ok?, error: m}` (the 400 body
has no `ok` field, the 500 body has `ok: false`). -/
inductive BookResp where
  | json (ok : Bool) (eventId : String)
  | err (status : Nat) (okField : Option Bool) (error : String)
deriving DecidableEq

/-- How the forward-scan loop ended: normally (`done`), by a thrown
free/busy failure (`failed`), or out of model fuel (`fuelOut`). -/
inductive ScanOutcome where
  | done
  | failed
  | fuelOut
deriving DecidableEq

/-- State at loop exit: the collected suggestion starts `sug` and the
free/busy intervals queried so far. -/
structure ScanResult where
  outcome : ScanOutcome
  sug : List Int
  queries : List (Int × Int)
deriving DecidableEq

/-- JS truthiness test for an optional string: absent or empty is falsy. -/
def jsFalsy : Option String → Bool
  | none => true
  | some s => s == ""

/-- JS `x || d` for an optional string field. -/
def jsOr (o : Option String) (d : String) : String :=
  if jsFalsy o then d else o.getD ""

/-- Process-wide default timezone (server.js line 14). -/
def TIMEZONE : String := "America/Costa_Rica"

/-- server.js lines 39-43: throw unless a refresh token is present.  The
cached credential object is abstracted to its `refresh_token` field
(`credentials?.refresh_token`), checked with JS truthiness. -/
def ensureAuthed (refreshToken : Option String) : Except SrvError Unit :=
  if jsFalsy refreshToken then
    .error (.authError "Faltan tokens. Ejecuta /auth y /oauth2callback una vez para guardarlos.")
  else .ok ()

/-- server.js lines 160-177: the forward-scan `while` loop.  `cursor` is
advanced by `stepMin`, the candidate `[s, s + durationMin)` is bounds-checked
against the working-hours envelope, queried, recorded when free, and the
180-minute cap is tested after recording. -/
def scanLoop (gw : CalendarGateway) (calendarId tz : String)
    (start workStart workEnd durationMin stepMin : Int) (maxSugs : Nat) :
    Nat → Int → List Int → List (Int × Int) → ScanResult
  | 0, _, sug, queries => ⟨.fuelOut, sug, queries⟩
  | fuel + 1, cursor, sug, queries =>
    if sug.length < maxSugs then
      let s := cursor + stepMin
      let e := s + durationMin
      if s < workStart ∨ e > workEnd then ⟨.done, sug, queries⟩
      else
        match gw.freebusyQuery calendarId s e tz with
        | .error _ => ⟨.failed, sug, queries ++ [(s, e)]⟩
        | .ok fbResp =>
          let b2 := fbResp.getD []
          let sug' := if b2.length = 0 then sug ++ [s] else sug
          if s - start > 180 then ⟨.done, sug', queries ++ [(s, e)]⟩
          else scanLoop gw calendarId tz start workStart workEnd durationMin stepMin maxSugs
            fuel s sug' (queries ++ [(s, e)])
    else ⟨.done, sug, queries⟩

/-- server.js lines 119-184: the POST /availability handler.  Returns the
HTTP outcome together with the list of free/busy intervals queried. -/
def availabilityHandler (gw : CalendarGateway) (refreshToken : Option String)
    (djs : String → String → Int) (fuel : Nat) (req : AvailReq) :
    AvailResp × List (Int × Int) :=
  let calendarId := req.calendarId.getD ""
  let date := req.date.getD ""
  let time := req.time.getD ""
  let durationMin := req.durationMin.getD 45
  let tz := req.tz.getD TIMEZONE
  let horarioInicio := req.horarioInicio.getD "09:00"
  let horarioFin := req.horarioFin.getD "19:00"
  let stepMin := req.stepMin.getD 15
  let maxSugs := req.maxSugs.getD 3
  if jsFalsy req.calendarId || jsFalsy req.date || jsFalsy req.time then
    (.err 400 "missing_fields", [])
  else
    match ensureAuthed refreshToken with
    | .error _ => (.err 500 "availability_failed", [])
    | .ok _ =>
      let start := djs date time
      let endT := start + durationMin
      match gw.freebusyQuery calendarId start endT tz with
      | .error _ => (.err 500 "availability_failed", [(start, endT)])
      | .ok fbResp =>
        let busy := fbResp.getD []
        if busy.length = 0 then
          (.json true [], [(start, endT)])
        else
          let workStart := djs date horarioInicio
          let workEnd := djs date horarioFin
          let r := scanLoop gw calendarId tz start workStart workEnd durationMin stepMin maxSugs
            fuel start [] [(start, endT)]
          match r.outcome with
          | .done => (.json false r.sug, r.queries)
          | .failed => (.err 500 "availability_failed", r.queries)
          | .fuelOut => (.fuelOut, r.queries)

/-- server.js lines 205-214: the event body built by POST /book. -/
def bookEventBody (djs : String → String → Int) (req : BookReq) : EventBody :=
  let durationMin := req.durationMin.getD 45
  let tz := req.tz.getD TIMEZONE
  let start := djs (req.date.getD "") (req.time.getD "")
  let endT := start + durationMin
  { summary := jsOr req.servicio "Servicio" ++ " - " ++ jsOr req.nombre "Cliente"
    description := "Cliente: " ++ jsOr req.nombre "" ++ "\nTel: " ++ jsOr req.tel "" ++
      "\nServicio: " ++ jsOr req.servicio "" ++ "\nBarbero: " ++ jsOr req.barbero "" ++
      "\nNota: " ++ jsOr req.nota "" ++ "\nCode: " ++ jsOr req.code "" ++
      "\nEstado: Pendiente de confirmación\nCanal: WhatsApp"
    startDateTime := start
    endDateTime := endT
    timeZone := tz }

/-- server.js lines 187-221: the POST /book handler.  Returns the HTTP
outcome together with the list of free/busy intervals queried (none are:
booking never checks availability). -/
def bookHandler (gw : CalendarGateway) (refreshToken : Option String)
    (djs : String → String → Int) (req : BookReq) :
    BookResp × List (Int × Int) :=
  if jsFalsy req.calendarId || jsFalsy req.date || jsFalsy req.time then
    (.err 400 none "missing_fields", [])
  else
    match ensureAuthed refreshToken with
    | .error _ => (.err 500 (some false) "booking_failed", [])
    | .ok _ =>
      match gw.eventsInsert (req.calendarId.getD "") (bookEventBody djs req) with
      | .error _ => (.err 500 (some false) "booking_failed", [])
      | .ok eventId => (.json true eventId, [])

/-! Concrete instances used by the witness theorems. -/

/-- A concrete `dayjs.tz` interpretation for one date: minutes since
midnight of 2025-01-15. -/
def djs0 : String → String → Int := fun _ t =>
  if t = "10:00" then 600
  else if t = "09:00" then 540
  else if t = "19:00" then 1140
  else if t = "05:00" then 300
  else 0

/-- Gateway on which every interval is free and inserts succeed. -/
def gwFree : CalendarGateway where
  freebusyQuery := fun _ _ _ _ => .ok (some [])
  eventsInsert := fun _ _ => .ok "evt-1"

/-- Gateway on which exactly the interval starting at minute 600 is busy. -/
def gwPrimaryBusy : CalendarGateway where
  freebusyQuery := fun _ tmin _ _ =>
    if tmin = 600 then .ok (some [⟨600, 645⟩]) else .ok (some [])
  eventsInsert := fun _ _ => .ok "evt-1"

/-- Gateway on which every call raises an upstream error. -/
def gwFail : CalendarGateway where
  freebusyQuery := fun _ _ _ _ => .error (.upstreamError "boom")
  eventsInsert := fun _ _ => .error (.upstreamError "boom")

/-- A well-formed availability request: 2025-01-15 at 10:00. -/
def reqBase : AvailReq :=
  { calendarId := some "cal1", date := some "2025-01-15", time := some "10:00" }

/-- A well-formed booking request. -/
def bookReqBase : BookReq :=
  { calendarId := some "cal1", date := some "2025-01-15", time := some "10:00",
    nombre := some "Ana", servicio := some "Corte" }

/-! Invariant lemmas about the forward-scan loop, all by induction on the
fuel with the loop state generalized. -/

section ScanLemmas

variable (gw : CalendarGateway) (cid tz : String) (start ws we dur step : Int) (maxS : Nat)

/-- The suggestion list only grows at the back: the state at entry is a
prefix of the state at exit. -/
theorem scanLoop_sug_grows :
    ∀ fuel cursor sug queries,
      sug <+: (scanLoop gw cid tz start ws we dur step maxS fuel cursor sug queries).sug := by
  intro fuel
  induction fuel with
  | zero => intro cursor sug queries; simp [scanLoop]
  | succ fuel ih =>
    intro cursor sug queries
    simp only [scanLoop]
    split
    · split
      · simp
      · split
        · simp
        · split
          · split <;> simp
          · refine .trans ?_ (ih _ _ _)
            split <;> simp
    · simp

/-- The query log only grows at the back. -/
theorem scanLoop_queries_grows :
    ∀ fuel cursor sug queries,
      queries <+: (scanLoop gw cid tz start ws we dur step maxS fuel cursor sug queries).queries := by
  intro fuel
  induction fuel with
  | zero => intro cursor sug queries; simp [scanLoop]
  | succ fuel ih =>
    intro cursor sug queries
    simp only [scanLoop]
    split
    · split
      · simp
      · split
        · simp
        · split
          · split <;> simp
          · refine .trans ?_ (ih _ _ _)
            simp
    · simp

/-- Every suggestion present at exit was either present at entry or is a
recorded candidate: inside the working-hours envelope for its full
duration, at most `180 + step` minutes past `start` (the cap is tested
after recording), and offset from the entry cursor by a positive number
of steps.  Requires the entry cursor to be within the 180-minute cap. -/
theorem scanLoop_sug_mem :
    ∀ fuel cursor sug queries, cursor - start ≤ 180 →
      ∀ x ∈ (scanLoop gw cid tz start ws we dur step maxS fuel cursor sug queries).sug,
        x ∈ sug ∨ (ws ≤ x ∧ x + dur ≤ we ∧ x - start ≤ 180 + step ∧
          ∃ k : Nat, 1 ≤ k ∧ x = cursor + (k : Int) * step) := by
  intro fuel
  induction fuel with
  | zero =>
    intro cursor sug queries _ x hx
    exact .inl hx
  | succ fuel ih =>
    intro cursor sug queries hcap x hx
    simp only [scanLoop] at hx
    split at hx
    · split at hx
      · exact .inl hx
      · next hbound =>
        push_neg at hbound
        split at hx
        · exact .inl hx
        · split at hx
          · next h180 =>
            split at hx
            · rcases List.mem_append.1 hx with hx' | hx'
              · exact .inl hx'
              · simp at hx'
                subst hx'
                exact .inr ⟨hbound.1, hbound.2, by omega, 1, le_refl 1, by push_cast; ring⟩
            · exact .inl hx
          · next h180 =>
            rcases ih (cursor + step) _ _ (by omega) x hx with hx' | hx'
            · split at hx'
              · rcases List.mem_append.1 hx' with hx'' | hx''
                · exact .inl hx''
                · simp at hx''
                  subst hx''
                  exact .inr ⟨hbound.1, hbound.2, by omega, 1, le_refl 1, by push_cast; ring⟩
              · exact .inl hx'
            · obtain ⟨hws, hwe, hc, k, hk, hkx⟩ := hx'
              refine .inr ⟨hws, hwe, hc, k + 1, by omega, ?_⟩
              rw [hkx]
              push_cast
              ring
    · exact .inl hx

/-- Suggestions come out in non-decreasing order (for a non-negative step):
each recorded candidate start is at least the cursor, which never
decreases. -/
theorem scanLoop_sug_sorted (hstep : 0 ≤ step) :
    ∀ fuel cursor sug queries,
      sug.Pairwise (· ≤ ·) → (∀ y ∈ sug, y ≤ cursor) →
      ((scanLoop gw cid tz start ws we dur step maxS fuel cursor sug queries).sug).Pairwise
        (· ≤ ·) := by
  intro fuel
  induction fuel with
  | zero => intro cursor sug queries hs _; exact hs
  | succ fuel ih =>
    intro cursor sug queries hs hub
    have hpush : (sug ++ [cursor + step]).Pairwise (· ≤ ·) := by
      refine List.pairwise_append.2 ⟨hs, List.pairwise_singleton _ _, ?_⟩
      intro a ha b hb
      simp at hb
      subst hb
      have := hub a ha
      omega
    have hub' : ∀ y ∈ sug ++ [cursor + step], y ≤ cursor + step := by
      intro y hy
      rcases List.mem_append.1 hy with hy' | hy'
      · have := hub y hy'
        omega
      · simp at hy'
        omega
    simp only [scanLoop]
    split
    · split
      · exact hs
      · split
        · exact hs
        · split
          · split
            · exact hpush
            · exact hs
          · split
            · exact ih _ _ _ hpush hub'
            · exact ih _ _ _ hs (fun y hy => le_trans (hub y hy) (by omega))
    · exact hs

/-- The suggestion list never grows beyond `maxSugs`. -/
theorem scanLoop_sug_length :
    ∀ fuel cursor sug queries, sug.length ≤ maxS →
      ((scanLoop gw cid tz start ws we dur step maxS fuel cursor sug queries).sug).length ≤
        maxS := by
  intro fuel
  induction fuel with
  | zero => intro cursor sug queries h; exact h
  | succ fuel ih =>
    intro cursor sug queries hlen
    simp only [scanLoop]
    split
    · next hguard =>
      split
      · exact hlen
      · split
        · exact hlen
        · split
          · split
            · simp only [List.length_append, List.length_singleton]
              omega
            · exact hlen
          · split
            · refine ih _ _ _ ?_
              simp only [List.length_append, List.length_singleton]
              omega
            · exact ih _ _ _ hlen
    · exact hlen

/-- Worst-case query volume: starting within the cap, the loop issues at
most `⌊(180 - offset)/step⌋ + 1` further free/busy queries. -/
theorem scanLoop_queries_length (hstep : 1 ≤ step) :
    ∀ fuel cursor sug queries, cursor - start ≤ 180 →
      ((scanLoop gw cid tz start ws we dur step maxS fuel cursor sug queries).queries).length ≤
        queries.length + ((180 - (cursor - start)).toNat / step.toNat + 1) := by
  intro fuel
  induction fuel with
  | zero =>
    intro cursor sug queries h
    exact Nat.le_add_right _ _
  | succ fuel ih =>
    intro cursor sug queries hcap
    simp only [scanLoop]
    split
    · split
      · exact Nat.le_add_right _ _
      · split
        · simp only [List.length_append, List.length_singleton]
          exact Nat.add_le_add_left (Nat.le_add_left 1 _) _
        · split
          · simp only [List.length_append, List.length_singleton]
            exact Nat.add_le_add_left (Nat.le_add_left 1 _) _
          · next h180 =>
            refine le_trans (ih (cursor + step) _ _ (by omega)) ?_
            have h0 : 0 < step.toNat := by omega
            have hn : (180 - (cursor - start)).toNat
                = (180 - (cursor + step - start)).toNat + step.toNat := by omega
            rw [hn, Nat.add_div_right _ h0]
            simp only [List.length_append, List.length_singleton]
            generalize (180 - (cursor + step - start)).toNat / step.toNat = D
            omega
    · exact Nat.le_add_right _ _

/-- Unless the loop ended in a thrown free/busy failure, every interval in
the exit query log beyond the entry log received a successful response. -/
theorem scanLoop_queries_ok :
    ∀ fuel cursor sug queries,
      (scanLoop gw cid tz start ws we dur step maxS fuel cursor sug queries).outcome =
          .failed ∨
        ∀ p ∈ (scanLoop gw cid tz start ws we dur step maxS fuel cursor sug queries).queries,
          p ∈ queries ∨ ∃ r, gw.freebusyQuery cid p.1 p.2 tz = .ok r := by
  intro fuel
  induction fuel with
  | zero => intro cursor sug queries; exact .inr (fun p hp => .inl hp)
  | succ fuel ih =>
    intro cursor sug queries
    simp only [scanLoop]
    split
    · split
      · exact .inr (fun p hp => .inl hp)
      · split
        · exact .inl rfl
        · next fb heq =>
          split
          · refine .inr (fun p hp => ?_)
            rcases List.mem_append.1 hp with hp' | hp'
            · exact .inl hp'
            · simp at hp'
              subst hp'
              exact .inr ⟨fb, heq⟩
          · rcases ih (cursor + step)
                (if (fb.getD []).length = 0 then sug ++ [cursor + step] else sug)
                (queries ++ [(cursor + step, cursor + step + dur)]) with hf | hok
            · exact .inl hf
            · refine .inr (fun p hp => ?_)
              rcases hok p hp with hp' | hp'
              · rcases List.mem_append.1 hp' with hp'' | hp''
                · exact .inl hp''
                · simp at hp''
                  subst hp''
                  exact .inr ⟨fb, heq⟩
              · exact .inr hp'
    · exact .inr (fun p hp => .inl hp)

end ScanLemmas

/-! Handler-level helper lemmas. -/

/-- Any JSON result of the availability handler carries at most
`maxSugs` (default 3) suggestions. -/
theorem availabilityHandler_sug_length (gw : CalendarGateway) (tok : Option String)
    (djs : String → String → Int) (fuel : Nat) (req : AvailReq) (d : Bool) (sug : List Int)
    (h : (availabilityHandler gw tok djs fuel req).1 = .json d sug) :
    sug.length ≤ req.maxSugs.getD 3 := by
  simp only [availabilityHandler] at h
  split at h
  · simp at h
  · split at h
    · simp at h
    · split at h
      · simp at h
      · split at h
        · simp only [Prod.fst] at h
          rw [AvailResp.json.injEq] at h
          rw [← h.2]
          simp
        · split at h
          · simp only [Prod.fst] at h
            rw [AvailResp.json.injEq] at h
            rw [← h.2]
            exact scanLoop_sug_length _ _ _ _ _ _ _ _ _ _ _ _ _ (by simp)
          · simp at h
          · simp at h

/-- Either the availability handler issued no free/busy query at all, or it
answered HTTP 500 `availability_failed`, or every query it issued received
a successful response. -/
theorem availabilityHandler_queries_ok (gw : CalendarGateway) (tok : Option String)
    (djs : String → String → Int) (fuel : Nat) (req : AvailReq) :
    (availabilityHandler gw tok djs fuel req).2 = [] ∨
      (availabilityHandler gw tok djs fuel req).1 = .err 500 "availability_failed" ∨
      ∀ p ∈ (availabilityHandler gw tok djs fuel req).2,
        ∃ r, gw.freebusyQuery (req.calendarId.getD "") p.1 p.2 (req.tz.getD TIMEZONE) =
          .ok r := by
  simp only [availabilityHandler]
  split
  · exact .inl rfl
  · split
    · exact .inl rfl
    · split
      · exact .inr (.inl rfl)
      · next fbResp heq =>
        split
        · refine .inr (.inr ?_)
          intro p hp
          simp at hp
          subst hp
          exact ⟨fbResp, heq⟩
        · split
          · next houtcome =>
            refine .inr (.inr ?_)
            rcases scanLoop_queries_ok gw (req.calendarId.getD "") (req.tz.getD TIMEZONE)
                (djs (req.date.getD "") (req.time.getD ""))
                (djs (req.date.getD "") (req.horarioInicio.getD "09:00"))
                (djs (req.date.getD "") (req.horarioFin.getD "19:00"))
                (req.durationMin.getD 45) (req.stepMin.getD 15) (req.maxSugs.getD 3)
                fuel (djs (req.date.getD "") (req.time.getD "")) []
                [(djs (req.date.getD "") (req.time.getD ""),
                  djs (req.date.getD "") (req.time.getD "") + req.durationMin.getD 45)]
              with hfail | hok
            · rw [houtcome] at hfail
              simp at hfail
            · intro p hp
              rcases hok p hp with hp' | hp'
              · simp at hp'
                subst hp'
                exact ⟨fbResp, heq⟩
              · exact hp'
          · exact .inr (.inl rfl)
          · next houtcome =>
            refine .inr (.inr ?_)
            rcases scanLoop_queries_ok gw (req.calendarId.getD "") (req.tz.getD TIMEZONE)
                (djs (req.date.getD "") (req.time.getD ""))
                (djs (req.date.getD "") (req.horarioInicio.getD "09:00"))
                (djs (req.date.getD "") (req.horarioFin.getD "19:00"))
                (req.durationMin.getD 45) (req.stepMin.getD 15) (req.maxSugs.getD 3)
                fuel (djs (req.date.getD "") (req.time.getD "")) []
                [(djs (req.date.getD "") (req.time.getD ""),
                  djs (req.date.getD "") (req.time.getD "") + req.durationMin.getD 45)]
              with hfail | hok
            · rw [houtcome] at hfail
              simp at hfail
            · intro p hp
              rcases hok p hp with hp' | hp'
              · simp at hp'
                subst hp'
                exact ⟨fbResp, heq⟩
              · exact hp'

/-! Claim theorems. -/

/-- C1: if the primary slot's free/busy query returns an empty busy set,
POST /availability returns `{disponible: true, sugerencias: []}` immediately,
and the query log holds exactly the one primary query. -/
theorem claim1_primary_free_short_circuit (gw : CalendarGateway) (tok : Option String)
    (djs : String → String → Int) (fuel : Nat) (req : AvailReq)
    (fbResp : Option (List BusyInterval))
    (hc : jsFalsy req.calendarId = false) (hd : jsFalsy req.date = false)
    (ht : jsFalsy req.time = false) (htok : jsFalsy tok = false)
    (hq : gw.freebusyQuery (req.calendarId.getD "")
        (djs (req.date.getD "") (req.time.getD ""))
        (djs (req.date.getD "") (req.time.getD "") + req.durationMin.getD 45)
        (req.tz.getD TIMEZONE) = .ok fbResp)
    (hb : (fbResp.getD []).length = 0) :
    availabilityHandler gw tok djs fuel req =
      (.json true [],
        [(djs (req.date.getD "") (req.time.getD ""),
          djs (req.date.getD "") (req.time.getD "") + req.durationMin.getD 45)]) := by
  simp only [availabilityHandler]
  simp [hc, hd, ht, ensureAuthed, htok, hq, hb]

/-- C1 witness: a concrete free primary slot. -/
theorem claim1_witness :
    availabilityHandler gwFree (some "tok") djs0 200 reqBase =
      (.json true [],
        [(djs0 (reqBase.date.getD "") (reqBase.time.getD ""),
          djs0 (reqBase.date.getD "") (reqBase.time.getD "") +
            reqBase.durationMin.getD 45)]) :=
  claim1_primary_free_short_circuit gwFree (some "tok") djs0 200 reqBase (some [])
    (by decide) (by decide) (by decide) (by decide) (by rfl) (by decide)

/-- C7: a POST /availability request missing `calendarId`, `date` or `time`
(absent or empty, per JS truthiness) yields HTTP 400 `{error:
"missing_fields"}` with an empty query log: no network call is made. -/
theorem claim7_missing_fields (gw : CalendarGateway) (tok : Option String)
    (djs : String → String → Int) (fuel : Nat) (req : AvailReq)
    (h : jsFalsy req.calendarId = true ∨ jsFalsy req.date = true ∨ jsFalsy req.time = true) :
    availabilityHandler gw tok djs fuel req = (.err 400 "missing_fields", []) := by
  simp only [availabilityHandler]
  rcases h with h | h | h <;> simp [h]

/-- C7 witness: a concrete request with no `calendarId`. -/
theorem claim7_witness :
    availabilityHandler gwFree (some "tok") djs0 200 { reqBase with calendarId := none } =
      (.err 400 "missing_fields", []) :=
  claim7_missing_fields gwFree (some "tok") djs0 200 _ (.inl (by decide))

/-- C6 (amended): a POST /availability or POST /book request that passes the
missing-fields validation, issued while no refresh credential is present,
fails with `AuthenticationError` (never reaching a Calendar Service call:
the query log is empty) and is surfaced as HTTP 500. -/
theorem claim6_amended_auth_guard (gw : CalendarGateway) (tok : Option String)
    (djs : String → String → Int) (fuel : Nat) (ar : AvailReq) (br : BookReq)
    (hac : jsFalsy ar.calendarId = false) (had : jsFalsy ar.date = false)
    (hat : jsFalsy ar.time = false)
    (hbc : jsFalsy br.calendarId = false) (hbd : jsFalsy br.date = false)
    (hbt : jsFalsy br.time = false)
    (htok : jsFalsy tok = true) :
    ensureAuthed tok =
        .error (.authError
          "Faltan tokens. Ejecuta /auth y /oauth2callback una vez para guardarlos.") ∧
      availabilityHandler gw tok djs fuel ar = (.err 500 "availability_failed", []) ∧
      bookHandler gw tok djs br = (.err 500 (some false) "booking_failed", []) := by
  have he : ensureAuthed tok =
      .error (.authError
        "Faltan tokens. Ejecuta /auth y /oauth2callback una vez para guardarlos.") := by
    simp [ensureAuthed, htok]
  refine ⟨he, ?_, ?_⟩
  · simp only [availabilityHandler]
    simp [hac, had, hat, he]
  · simp only [bookHandler]
    simp [hbc, hbd, hbt, he]

/-- C6 witness: concrete well-formed requests with no token present. -/
theorem claim6_witness :
    ensureAuthed none =
        .error (.authError
          "Faltan tokens. Ejecuta /auth y /oauth2callback una vez para guardarlos.") ∧
      availabilityHandler gwFree none djs0 200 reqBase =
        (.err 500 "availability_failed", []) ∧
      bookHandler gwFree none djs0 bookReqBase = (.err 500 (some false) "booking_failed", []) :=
  claim6_amended_auth_guard gwFree none djs0 200 reqBase bookReqBase
    (by decide) (by decide) (by decide) (by decide) (by decide) (by decide) (by decide)

/-- C6 counterexample: a request issued with no refresh credential but with
a missing `calendarId` is answered HTTP 400 `missing_fields` — not an
`AuthenticationError` surfaced as HTTP 500, contradicting the claim's
universal quantification over all requests. -/
theorem claim6_counterexample :
    availabilityHandler gwFree none djs0 200 { reqBase with calendarId := none } =
        (.err 400 "missing_fields", []) ∧
      (AvailResp.err 400 "missing_fields") ≠ (AvailResp.err 500 "availability_failed") := by
  exact ⟨by decide, by decide⟩

/-- C10: the working-hours envelope does not constrain the primary slot:
when the primary busy set is empty the handler answers
`{disponible: true, sugerencias: []}` even if the primary slot lies partly
or entirely outside `[workStart, workEnd]`. -/
theorem claim10_primary_unconstrained (gw : CalendarGateway) (tok : Option String)
    (djs : String → String → Int) (fuel : Nat) (req : AvailReq)
    (fbResp : Option (List BusyInterval))
    (hc : jsFalsy req.calendarId = false) (hd : jsFalsy req.date = false)
    (ht : jsFalsy req.time = false) (htok : jsFalsy tok = false)
    (_houtside : djs (req.date.getD "") (req.time.getD "") <
        djs (req.date.getD "") (req.horarioInicio.getD "09:00") ∨
      djs (req.date.getD "") (req.horarioFin.getD "19:00") <
        djs (req.date.getD "") (req.time.getD "") + req.durationMin.getD 45)
    (hq : gw.freebusyQuery (req.calendarId.getD "")
        (djs (req.date.getD "") (req.time.getD ""))
        (djs (req.date.getD "") (req.time.getD "") + req.durationMin.getD 45)
        (req.tz.getD TIMEZONE) = .ok fbResp)
    (hb : (fbResp.getD []).length = 0) :
    availabilityHandler gw tok djs fuel req =
      (.json true [],
        [(djs (req.date.getD "") (req.time.getD ""),
          djs (req.date.getD "") (req.time.getD "") + req.durationMin.getD 45)]) := by
  simp only [availabilityHandler]
  simp [hc, hd, ht, ensureAuthed, htok, hq, hb]

/-- C10 witness: a free primary slot at 05:00, before the 09:00 work
start, still reported available. -/
theorem claim10_witness :
    availabilityHandler gwFree (some "tok") djs0 200 { reqBase with time := some "05:00" } =
      (.json true [],
        [(djs0 (reqBase.date.getD "") "05:00",
          djs0 (reqBase.date.getD "") "05:00" + reqBase.durationMin.getD 45)]) :=
  claim10_primary_unconstrained gwFree (some "tok") djs0 200
    { reqBase with time := some "05:00" } (some [])
    (by decide) (by decide) (by decide) (by decide) (.inl (by decide)) (by rfl) (by decide)

/-- C9: POST /book performs no availability check: its free/busy query log
is always empty, its result is unchanged under any replacement of the
free/busy function (the busy state of the calendar), and it answers
`{ok: true, eventId}` whenever the event-create call succeeds. -/
theorem claim9_book_independent :
    (∀ (gw : CalendarGateway) (tok : Option String) (djs : String → String → Int)
        (br : BookReq), (bookHandler gw tok djs br).2 = []) ∧
      (∀ (fb fb' : String → Int → Int → String → Except SrvError (Option (List BusyInterval)))
          (ins : String → EventBody → Except SrvError String)
          (tok : Option String) (djs : String → String → Int) (br : BookReq),
        bookHandler ⟨fb, ins⟩ tok djs br = bookHandler ⟨fb', ins⟩ tok djs br) ∧
      (∀ (gw : CalendarGateway) (tok : Option String) (djs : String → String → Int)
          (br : BookReq) (eid : String),
        jsFalsy br.calendarId = false → jsFalsy br.date = false → jsFalsy br.time = false →
        jsFalsy tok = false →
        gw.eventsInsert (br.calendarId.getD "") (bookEventBody djs br) = .ok eid →
        bookHandler gw tok djs br = (.json true eid, [])) := by
  refine ⟨?_, ?_, ?_⟩
  · intro gw tok djs br
    simp only [bookHandler]
    split
    · rfl
    · split
      · rfl
      · split <;> rfl
  · intro fb fb' ins tok djs br
    rfl
  · intro gw tok djs br eid hc hd ht htok hins
    simp only [bookHandler]
    simp [hc, hd, ht, ensureAuthed, htok, hins]

/-- C9 witness: a concrete booking on a gateway whose insert succeeds,
with no prior availability check. -/
theorem claim9_witness :
    (bookHandler gwFree (some "tok") djs0 bookReqBase).2 = [] ∧
      bookHandler gwFree (some "tok") djs0 bookReqBase = (.json true "evt-1", []) :=
  ⟨claim9_book_independent.1 gwFree (some "tok") djs0 bookReqBase,
   claim9_book_independent.2.2 gwFree (some "tok") djs0 bookReqBase "evt-1"
     (by decide) (by decide) (by decide) (by decide) (by rfl)⟩

/-- C5: a supplied `maxSugs` field value `k` bounds the suggestion list
length by `k`; the scan issues nothing further once `k` suggestions are
collected (the loop exits at its guard); and an omitted field behaves as
the default 3. -/
theorem claim5_max_suggestions :
    (∀ (gw : CalendarGateway) (tok : Option String) (djs : String → String → Int)
        (fuel : Nat) (req : AvailReq) (k : Nat) (d : Bool) (sug : List Int),
      req.maxSugs = some k →
      (availabilityHandler gw tok djs fuel req).1 = .json d sug →
      sug.length ≤ k) ∧
      (∀ (gw : CalendarGateway) (cid tz : String) (start ws we dur step : Int)
          (k fuel : Nat) (cursor : Int) (sug : List Int) (queries : List (Int × Int)),
        sug.length = k →
        scanLoop gw cid tz start ws we dur step k (fuel + 1) cursor sug queries =
          ⟨.done, sug, queries⟩) ∧
      (∀ (gw : CalendarGateway) (tok : Option String) (djs : String → String → Int)
          (fuel : Nat) (req : AvailReq),
        availabilityHandler gw tok djs fuel { req with maxSugs := none } =
          availabilityHandler gw tok djs fuel { req with maxSugs := some 3 }) := by
  refine ⟨?_, ?_, ?_⟩
  · intro gw tok djs fuel req k d sug hmax h
    have := availabilityHandler_sug_length gw tok djs fuel req d sug h
    rwa [hmax] at this
  · intro gw cid tz start ws we dur step k fuel cursor sug queries hlen
    simp [scanLoop, hlen]
  · intro gw tok djs fuel req
    rfl

/-- C5 witness: `maxSugs = 2` caps a scan that would otherwise find three
suggestions, and a full list stops the loop at its guard. -/
theorem claim5_witness :
    ([615, 630] : List Int).length ≤ 2 ∧
      scanLoop gwFree "cal1" TIMEZONE 600 540 1140 45 15 2 7 630 [615, 630] [] =
        ⟨.done, [615, 630], []⟩ :=
  ⟨claim5_max_suggestions.1 gwPrimaryBusy (some "tok") djs0 200
      { reqBase with maxSugs := some 2 } 2 false [615, 630] rfl (by decide),
   claim5_max_suggestions.2.1 gwFree "cal1" TIMEZONE 600 540 1140 45 15 2 6 630
     [615, 630] [] rfl⟩

/-- C4: boundary policy of the forward scan.  A candidate whose start
precedes `workStart` or whose end exceeds `workEnd` terminates the search
at once (result exactly the state so far: no wrap, no clamp, no further
query); a candidate whose end equals `workEnd` exactly is queried and,
when free, recorded as a suggestion. -/
theorem claim4_boundary_policy (gw : CalendarGateway) (cid tz : String)
    (start ws we dur step : Int) (maxS fuel : Nat) (cursor : Int)
    (sug : List Int) (queries : List (Int × Int)) :
    (sug.length < maxS →
      (cursor + step < ws ∨ cursor + step + dur > we) →
      scanLoop gw cid tz start ws we dur step maxS (fuel + 1) cursor sug queries =
        ⟨.done, sug, queries⟩) ∧
      (∀ fbResp : Option (List BusyInterval),
        sug.length < maxS →
        ws ≤ cursor + step →
        cursor + step + dur = we →
        gw.freebusyQuery cid (cursor + step) (cursor + step + dur) tz = .ok fbResp →
        (fbResp.getD []).length = 0 →
        (cursor + step) ∈
            (scanLoop gw cid tz start ws we dur step maxS (fuel + 1) cursor sug queries).sug ∧
          (cursor + step, cursor + step + dur) ∈
            (scanLoop gw cid tz start ws we dur step maxS (fuel + 1) cursor
              sug queries).queries) := by
  constructor
  · intro hlt hb
    simp only [scanLoop]
    rw [if_pos hlt, if_pos hb]
  · intro fbResp hlt hws hwe hq hempty
    have hbnot : ¬(cursor + step < ws ∨ cursor + step + dur > we) := by
      push_neg
      exact ⟨hws, by omega⟩
    simp only [scanLoop]
    rw [if_pos hlt, if_neg hbnot, hq]
    simp only [hempty, if_pos rfl]
    split
    · constructor <;> simp
    · exact ⟨(scanLoop_sug_grows gw cid tz start ws we dur step maxS fuel _ _ _).subset
          (by simp),
        (scanLoop_queries_grows gw cid tz start ws we dur step maxS fuel _ _ _).subset
          (by simp)⟩

/-- C4 witness: at a cursor of 1090 the next candidate 1105..1150 exceeds
the 1140 work end and the scan stops with nothing new; at a cursor of 1080
the candidate 1095..1140 ends exactly at the work end and is queried and
recorded. -/
theorem claim4_witness :
    scanLoop gwFree "cal1" TIMEZONE 600 540 1140 45 15 3 6 1090 [] [] =
        ⟨.done, [], []⟩ ∧
      ((1080 + 15 : Int) ∈
          (scanLoop gwFree "cal1" TIMEZONE 600 540 1140 45 15 3 6 1080 [] []).sug ∧
        ((1080 + 15 : Int), (1080 + 15 + 45 : Int)) ∈
          (scanLoop gwFree "cal1" TIMEZONE 600 540 1140 45 15 3 6 1080 [] []).queries) :=
  ⟨(claim4_boundary_policy gwFree "cal1" TIMEZONE 600 540 1140 45 15 3 5 1090 [] []).1
      (by decide) (by decide),
   (claim4_boundary_policy gwFree "cal1" TIMEZONE 600 540 1140 45 15 3 5 1080 [] []).2
     (some []) (by decide) (by decide) (by decide) (by rfl) (by decide)⟩

/-- C2 counterexample: primary 10:00+45 busy, every candidate free,
`stepMin = 15`, `maxSugs = 20`.  The scan records a suggestion at minute
795 = start + 195 > start + 180, and issues 13 candidate queries (14 with
the primary), exceeding the claimed bound of one per ceil(180/15) = 12. -/
theorem claim2_counterexample :
    (availabilityHandler gwPrimaryBusy (some "tok") djs0 200
        { reqBase with maxSugs := some 20 }).1 =
        .json false [615, 630, 645, 660, 675, 690, 705, 720, 735, 750, 765, 780, 795] ∧
      (795 : Int) ∈ [615, 630, 645, 660, 675, 690, 705, 720, 735, 750, 765, 780, 795] ∧
      (795 : Int) - 600 > 180 ∧
      (availabilityHandler gwPrimaryBusy (some "tok") djs0 200
        { reqBase with maxSugs := some 20 }).2.length = 14 ∧
      14 > 1 + 180 / 15 := by
  refine ⟨by decide, by decide, by decide, by decide, by decide⟩

/-- C2 (amended): the search terminates at the end of the first iteration
whose cursor exceeds `start + 180` (the cap is tested after recording), so
at most `180/stepMin + 1` candidate queries are issued (`180/stepMin + 2`
in total with the primary query, rounding the division down) and no
recorded suggestion starts more than `180 + stepMin` minutes after the
primary slot's start. -/
theorem claim2_amended_search_cap (gw : CalendarGateway) (tok : Option String)
    (djs : String → String → Int) (fuel : Nat) (req : AvailReq)
    (hstep : 1 ≤ req.stepMin.getD 15) :
    ((availabilityHandler gw tok djs fuel req).2).length ≤
        180 / (req.stepMin.getD 15).toNat + 2 ∧
      ∀ d sug, (availabilityHandler gw tok djs fuel req).1 = .json d sug →
        ∀ x ∈ sug,
          x - djs (req.date.getD "") (req.time.getD "") ≤ 180 + req.stepMin.getD 15 := by
  constructor
  · simp only [availabilityHandler]
    split
    · simp
    · split
      · simp
      · split
        · simp
        · split
          · simp
          · have hq := scanLoop_queries_length gw (req.calendarId.getD "")
              (req.tz.getD TIMEZONE) (djs (req.date.getD "") (req.time.getD ""))
              (djs (req.date.getD "") (req.horarioInicio.getD "09:00"))
              (djs (req.date.getD "") (req.horarioFin.getD "19:00"))
              (req.durationMin.getD 45) (req.stepMin.getD 15) (req.maxSugs.getD 3) hstep
              fuel (djs (req.date.getD "") (req.time.getD "")) []
              [(djs (req.date.getD "") (req.time.getD ""),
                djs (req.date.getD "") (req.time.getD "") + req.durationMin.getD 45)]
              (by omega)
            simp at hq
            split <;> exact le_trans hq (by omega)
  · intro d sug h
    simp only [availabilityHandler] at h
    split at h
    · simp at h
    · split at h
      · simp at h
      · split at h
        · simp at h
        · split at h
          · simp only [Prod.fst] at h
            rw [AvailResp.json.injEq] at h
            rw [← h.2]
            simp
          · split at h
            · simp only [Prod.fst] at h
              rw [AvailResp.json.injEq] at h
              rw [← h.2]
              intro x hx
              rcases scanLoop_sug_mem gw (req.calendarId.getD "") (req.tz.getD TIMEZONE)
                  (djs (req.date.getD "") (req.time.getD ""))
                  (djs (req.date.getD "") (req.horarioInicio.getD "09:00"))
                  (djs (req.date.getD "") (req.horarioFin.getD "19:00"))
                  (req.durationMin.getD 45) (req.stepMin.getD 15) (req.maxSugs.getD 3)
                  fuel (djs (req.date.getD "") (req.time.getD "")) []
                  [(djs (req.date.getD "") (req.time.getD ""),
                    djs (req.date.getD "") (req.time.getD "") + req.durationMin.getD 45)]
                  (by omega) x hx with hx' | hx'
              · simp at hx'
              · omega
            · simp at h
            · simp at h

/-- C2 witness for the amended cap: the 13-suggestion run stays within
`start + 195` and its 14 queries within `180/15 + 2`. -/
theorem claim2_witness :
    ((availabilityHandler gwPrimaryBusy (some "tok") djs0 200
        { reqBase with maxSugs := some 20 }).2).length ≤ 180 / 15 + 2 ∧
      ∀ x ∈ [615, 630, 645, 660, 675, 690, 705, 720, 735, 750, 765, 780, 795],
        x - djs0 ({ reqBase with maxSugs := some (20:Nat) }.date.getD "")
          ({ reqBase with maxSugs := some (20:Nat) }.time.getD "") ≤ (180 + 15 : Int) :=
  ⟨(claim2_amended_search_cap gwPrimaryBusy (some "tok") djs0 200
      { reqBase with maxSugs := some 20 } (by decide)).1,
   (claim2_amended_search_cap gwPrimaryBusy (some "tok") djs0 200
      { reqBase with maxSugs := some 20 } (by decide)).2 false
     [615, 630, 645, 660, 675, 690, 705, 720, 735, 750, 765, 780, 795] (by decide)⟩

/-- C3: invariants of every suggestion list the handler returns: entries in
non-decreasing chronological order, each offset from the primary start by a
positive multiple of `stepMin`, each candidate slot lying fully within the
working-hours envelope, and the list no longer than `maxSugs`. -/
theorem claim3_suggestion_invariants (gw : CalendarGateway) (tok : Option String)
    (djs : String → String → Int) (fuel : Nat) (req : AvailReq) (d : Bool) (sug : List Int)
    (hstep : 1 ≤ req.stepMin.getD 15)
    (h : (availabilityHandler gw tok djs fuel req).1 = .json d sug) :
    sug.Pairwise (· ≤ ·) ∧
      (∀ x ∈ sug, ∃ k : Nat, 1 ≤ k ∧
        x = djs (req.date.getD "") (req.time.getD "") + (k : Int) * req.stepMin.getD 15) ∧
      (∀ x ∈ sug, djs (req.date.getD "") (req.horarioInicio.getD "09:00") ≤ x ∧
        x + req.durationMin.getD 45 ≤ djs (req.date.getD "") (req.horarioFin.getD "19:00")) ∧
      sug.length ≤ req.maxSugs.getD 3 := by
  refine ⟨?_, ?_, ?_, availabilityHandler_sug_length gw tok djs fuel req d sug h⟩ <;>
    · simp only [availabilityHandler] at h
      split at h
      · simp at h
      · split at h
        · simp at h
        · split at h
          · simp at h
          · split at h
            · simp only [Prod.fst] at h
              rw [AvailResp.json.injEq] at h
              rw [← h.2]
              simp
            · split at h
              · simp only [Prod.fst] at h
                rw [AvailResp.json.injEq] at h
                rw [← h.2]
                first
                | exact scanLoop_sug_sorted gw (req.calendarId.getD "")
                    (req.tz.getD TIMEZONE) (djs (req.date.getD "") (req.time.getD ""))
                    (djs (req.date.getD "") (req.horarioInicio.getD "09:00"))
                    (djs (req.date.getD "") (req.horarioFin.getD "19:00"))
                    (req.durationMin.getD 45) (req.stepMin.getD 15)
                    (req.maxSugs.getD 3) (by omega) fuel _ _ _ (by simp) (by simp)
                | · intro x hx
                    rcases scanLoop_sug_mem gw (req.calendarId.getD "")
                        (req.tz.getD TIMEZONE) (djs (req.date.getD "") (req.time.getD ""))
                        (djs (req.date.getD "") (req.horarioInicio.getD "09:00"))
                        (djs (req.date.getD "") (req.horarioFin.getD "19:00"))
                        (req.durationMin.getD 45) (req.stepMin.getD 15)
                        (req.maxSugs.getD 3) fuel
                        (djs (req.date.getD "") (req.time.getD "")) []
                        [(djs (req.date.getD "") (req.time.getD ""),
                          djs (req.date.getD "") (req.time.getD "") +
                            req.durationMin.getD 45)]
                        (by omega) x hx with hx' | hx'
                    · simp at hx'
                    · first
                      | exact ⟨hx'.1, hx'.2.1⟩
                      | exact hx'.2.2.2
              · simp at h
              · simp at h

/-- C3 witness: the three-suggestion run at 10:00 with all candidates
free after a busy primary. -/
theorem claim3_witness :
    ([615, 630, 645] : List Int).Pairwise (· ≤ ·) ∧
      (∀ x ∈ ([615, 630, 645] : List Int), ∃ k : Nat, 1 ≤ k ∧
        x = djs0 (reqBase.date.getD "") (reqBase.time.getD "") +
          (k : Int) * reqBase.stepMin.getD 15) ∧
      (∀ x ∈ ([615, 630, 645] : List Int),
        djs0 (reqBase.date.getD "") (reqBase.horarioInicio.getD "09:00") ≤ x ∧
        x + reqBase.durationMin.getD 45 ≤
          djs0 (reqBase.date.getD "") (reqBase.horarioFin.getD "19:00")) ∧
      ([615, 630, 645] : List Int).length ≤ reqBase.maxSugs.getD 3 :=
  claim3_suggestion_invariants gwPrimaryBusy (some "tok") djs0 200 reqBase false
    [615, 630, 645] (by decide) (by decide)

/-- C8: if any issued free/busy query failed, the whole availability
request aborts as HTTP 500 `{error: "availability_failed"}` — never a JSON
result with the suggestions collected before the failure. -/
theorem claim8_abort_on_failure (gw : CalendarGateway) (tok : Option String)
    (djs : String → String → Int) (fuel : Nat) (req : AvailReq)
    (h : ∃ p ∈ (availabilityHandler gw tok djs fuel req).2, ∃ er,
      gw.freebusyQuery (req.calendarId.getD "") p.1 p.2 (req.tz.getD TIMEZONE) = .error er) :
    (availabilityHandler gw tok djs fuel req).1 = .err 500 "availability_failed" := by
  obtain ⟨p, hp, er, her⟩ := h
  rcases availabilityHandler_queries_ok gw tok djs fuel req with hnil | h500 | hok
  · rw [hnil] at hp
    simp at hp
  · exact h500
  · obtain ⟨r, hr⟩ := hok p hp
    rw [her] at hr
    exact absurd hr (by simp)

/-- C8 witness: a gateway whose primary free/busy query raises. -/
theorem claim8_witness :
    (availabilityHandler gwFail (some "tok") djs0 200 reqBase).1 =
      .err 500 "availability_failed" :=
  claim8_abort_on_failure gwFail (some "tok") djs0 200 reqBase
    ⟨(600, 645), by decide, .upstreamError "boom", by rfl⟩
